import Mathlib

/-!
Shallow embedding of the LNbits wallet-adapter core
(`src/lnbits/wallets/lnbits.py`, `lnpay.py`, `zbd.py`) and proofs about it.

Dynamic Python values that flow out of `r.json()` are embedded as `PyObj`;
HTTP interaction is embedded by passing the outcome of the network call as an
explicit argument; a Python exception escaping a method is embedded as the
`.error` branch of `Except PyExc`.
-/

set_option maxRecDepth 4000

namespace LnbitsWallets

/-- Python values as the adapters see them after `r.json()` / in the
status maps: `None`, booleans, integers, strings and JSON objects. -/
inductive PyObj where
  | pynone
  | pybool (b : Bool)
  | pyint (n : Int)
  | pystr (s : String)
  | pydict (fields : List (String × PyObj))

/-- Equality test used for membership in the status maps (`status in
statuses.success`).  The maps only ever hold scalars, so comparing a
dict to anything yields `False`, as Python does for mixed types. -/
def PyObj.scalarEq : PyObj → PyObj → Bool
  | .pynone, .pynone => true
  | .pybool a, .pybool b => a == b
  | .pyint a, .pyint b => a == b
  | .pystr a, .pystr b => a == b
  | _, _ => false

/-- Embeds `d[k]` / `d.get(k)` on a JSON object: `none` embeds both a missing key
and indexing a non-dict. -/
def PyObj.getItem : PyObj → String → Option PyObj
  | .pydict fields, k => fields.lookup k
  | _, _ => none

/-- Predicate `PyObj.isScalar v` holds for the non-dict values. -/
def PyObj.isScalar : PyObj → Bool
  | .pydict _ => false
  | _ => true

/-- Python exceptions the embedded adapter methods can raise.
`typeError` also stands in for the embedding's typing of result dataclass
fields: where Python would store a non-string/non-int provider field
unrendered, the embedding rejects it; no claim involves such a response. -/
inductive PyExc where
  | keyError (key : String)
  | typeError (msg : String)
  | valueError (msg : String)
  | attributeError (msg : String)
  | jsonDecodeError
  | unsupported (msg : String)
  | runtimeError (msg : String)
  | transportError (msg : String)

/-- Dataclass `StatusResponse` from `wallets/base.py`: balance query result. -/
structure StatusResponse where
  error : Option String
  balance_msat : Int

/-- Result `InvoiceResponse` (`InvoiceResponseSuccess` / `InvoiceResponseFailed`). -/
inductive InvoiceResponse where
  | success (checking_id : String) (payment_request : String)
  | failed (error_message : String)

/-- Result `PaymentResponse` (`PaymentResponseSuccess` / `PaymentResponseFailed`).
The `fee_msat` slot is `Optional[int]`: the LNbits adapter forwards the
possibly-absent fee of a `PaymentStatus` into it unchanged. -/
inductive PaymentResponse where
  | success (checking_id : String) (fee_msat : Option Int)
      (preimage : Option String)
  | failed (error_message : String)

/-- Canonical tri-state `PaymentStatus` (`PaymentStatusPending` /
`PaymentStatusSuccess` / `PaymentStatusFailed`). -/
inductive PaymentStatus where
  | pending
  | success (fee_msat : Option Int) (preimage : Option String)
  | failed

/-- Table `PaymentStatusMap`: per-adapter native-token sets. -/
structure PaymentStatusMap where
  success : List PyObj
  failed : List PyObj
  pending : List PyObj

/-- Embeds `LNbitsWallet.payment_status_map` (lnbits.py lines 47-53):
`success=[True], failed=[False], pending=[None]`. -/
def LNbitsWallet.payment_status_map : PaymentStatusMap :=
  ⟨[.pybool true], [.pybool false], [.pynone]⟩

/-- Embeds `LNPayWallet.payment_status_map` (lnpay.py lines 52-58):
`success=[1], failed=[-1], pending=[0]`. -/
def LNPayWallet.payment_status_map : PaymentStatusMap :=
  ⟨[.pyint 1], [.pyint (-1)], [.pyint 0]⟩

/-- Embeds `ZBDWallet.payment_status_map` (zbd.py lines 42-48). -/
def ZBDWallet.payment_status_map : PaymentStatusMap :=
  ⟨[.pystr "completed", .pystr "paid"],
   [.pystr "failed", .pystr "expired"],
   [.pystr "initial", .pystr "pending", .pystr "error", .pystr "unpaid"]⟩

/-- Modelled from the spec: the shared Status Normalizer
`Wallet.payment_status` lives in `lnbits/wallets/base.py`, which is not among
the sources; spec section 4.2 describes it as a pure membership lookup of the
native token against the adapter's `PaymentStatusMap`, returning the set's
canonical state, with any token absent from all three sets resolving to
`Pending`, and `Success` carrying the optionally supplied fee/preimage. -/
def Wallet.payment_status (m : PaymentStatusMap) (status : PyObj)
    (fee_msat : Option Int) (preimage : Option String) : PaymentStatus :=
  if m.success.any fun v => v.scalarEq status then .success fee_msat preimage
  else if m.failed.any fun v => v.scalarEq status then .failed
  else .pending

/-- An httpx response as the adapters consume it: status code, raw body
text, and the value `r.json()` would produce (`none` when the body is not
valid JSON, in which case calling `r.json()` raises `JSONDecodeError`). -/
structure HttpResponse where
  status_code : Nat
  text : String
  json : Option PyObj

/-- Embeds `r.is_error`: httpx reports 4xx and 5xx codes as errors. -/
def HttpResponse.is_error (r : HttpResponse) : Bool :=
  400 ≤ r.status_code && r.status_code ≤ 599

/-- Outcome of one outbound httpx call: either a transport-level exception
(connection refused, timeout, read error, ...) or a response. -/
inductive HttpResult where
  | transportError (exc : String)
  | response (r : HttpResponse)

/-- Python `str(...)` of a scalar, as f-string interpolation renders it.
JSON objects are rendered abbreviated; no claim depends on that case. -/
def PyObj.pyToString : PyObj → String
  | .pynone => "None"
  | .pybool b => if b then "True" else "False"
  | .pyint n => toString n
  | .pystr s => s
  | .pydict _ => "dict"

def parseDigitsGo : List Char → Nat → Option Nat
  | [], acc => some acc
  | c :: rest, acc =>
    if c.isDigit then parseDigitsGo rest (10 * acc + (c.toNat - 48)) else none

/-- Decimal-digit run to its value; `none` on an empty run or a non-digit. -/
def parseDigits : List Char → Option Nat
  | [] => none
  | cs => parseDigitsGo cs 0

def trimSpaces (cs : List Char) : List Char :=
  ((cs.dropWhile fun c => c.isWhitespace).reverse.dropWhile
    fun c => c.isWhitespace).reverse

/-- Python `int(str)` digit parsing: optional sign before decimal digits,
surrounding whitespace stripped. -/
def pyIntOfString (s : String) : Option Int :=
  match trimSpaces s.data with
  | '-' :: rest => (parseDigits rest).map fun n => -(n : Int)
  | '+' :: rest => (parseDigits rest).map fun n => (n : Int)
  | cs => (parseDigits cs).map fun n => (n : Int)

/-- Python `int(...)` as the ZBD adapter applies it to the balance field:
ints pass through, bools coerce, digit strings parse, anything else
raises. -/
def pyInt : PyObj → Except PyExc Int
  | .pyint n => .ok n
  | .pybool b => .ok (if b then 1 else 0)
  | .pystr s =>
    match pyIntOfString s with
    | some n => .ok n
    | none => .error (.valueError s)
  | _ => .error (.typeError "int() argument")

/-- The three adapters' status maps, for claims that quantify over adapters. -/
def walletStatusMaps : List PaymentStatusMap :=
  [LNbitsWallet.payment_status_map, LNPayWallet.payment_status_map,
   ZBDWallet.payment_status_map]

/-- Embeds `LNbitsWallet.status` (lnbits.py lines 61-79) as a function of the
outcome of `GET /api/v1/wallet`.  The first `except Exception` catches any
failure of the request itself; a second try/except turns an unparseable
body into an error `StatusResponse`; an error status then reads
`data["detail"]` (raising `KeyError` when absent).  Where Python would store
a non-string provider field unrendered, the embedding rejects it with
`typeError`; no claim depends on such a response. -/
def LNbitsWallet.status (endpoint : String) (res : HttpResult) :
    Except PyExc StatusResponse :=
  match res with
  | .transportError exc =>
      .ok ⟨some ("Failed to connect to " ++ endpoint ++ " due to: " ++ exc), 0⟩
  | .response r =>
    match r.json with
    | none =>
        .ok ⟨some ("Failed to connect to " ++ endpoint ++ ", got: " ++
          r.text.take 200 ++ "..."), 0⟩
    | some data =>
      if r.is_error then
        match data.getItem "detail" with
        | some (.pystr detail) => .ok ⟨some detail, 0⟩
        | some _ => .error (.typeError "detail")
        | none => .error (.keyError "detail")
      else
        match data.getItem "balance" with
        | some (.pyint b) => .ok ⟨none, b⟩
        | some _ => .error (.typeError "balance")
        | none => .error (.keyError "balance")

/-- Embeds `LNPayWallet.status` (lnpay.py lines 66-84) as a function of the wallet
key and the outcome of `GET /wallet/{wallet_key}`.  Only
`httpx.ConnectError`/`httpx.RequestError` are caught, and only around the
request itself: `r.json()` runs outside any try block, so an unparseable
2xx body raises `JSONDecodeError`.  The non-active message reproduces the
source f-string, whose `(data['id'])` fragment is literal text. -/
def LNPayWallet.status (wallet_key : String) (res : HttpResult) :
    Except PyExc StatusResponse :=
  match res with
  | .transportError _ =>
      .ok ⟨some ("Unable to connect to /wallet/" ++ wallet_key), 0⟩
  | .response r =>
    if r.is_error then .ok ⟨some (r.text.take 250), 0⟩
    else
      match r.json with
      | none => .error .jsonDecodeError
      | some data =>
        match data.getItem "statusType" with
        | none => .error (.keyError "statusType")
        | some st =>
          match st.getItem "name" with
          | none => .error (.keyError "name")
          | some nameObj =>
            if (match nameObj with
                | .pystr s => s == "active"
                | _ => false) then
              match data.getItem "balance" with
              | some (.pyint b) => .ok ⟨none, b * 1000⟩
              | some _ => .error (.typeError "balance")
              | none => .error (.keyError "balance")
            else
              match data.getItem "user_label" with
              | none => .error (.keyError "user_label")
              | some ul =>
                .ok ⟨some ("Wallet " ++ ul.pyToString ++
                  " (data[id]) not active, but " ++ nameObj.pyToString), 0⟩

/-- Embeds `ZBDWallet.status` (zbd.py lines 56-69) as a function of the endpoint
and the outcome of `GET wallet`.  Only transport errors are caught;
`r.json()` runs outside the try block on both the error branch
(`r.json()["message"]`) and the success branch
(`int(r.json()["data"]["balance"])`), so an unparseable body raises. -/
def ZBDWallet.status (endpoint : String) (res : HttpResult) :
    Except PyExc StatusResponse :=
  match res with
  | .transportError _ =>
      .ok ⟨some ("Unable to connect to " ++ endpoint), 0⟩
  | .response r =>
    if r.is_error then
      match r.json with
      | none => .error .jsonDecodeError
      | some body =>
        match body.getItem "message" with
        | some (.pystr msg) => .ok ⟨some msg, 0⟩
        | some _ => .error (.typeError "message")
        | none => .error (.keyError "message")
    else
      match r.json with
      | none => .error .jsonDecodeError
      | some body =>
        match body.getItem "data" with
        | none => .error (.keyError "data")
        | some d =>
          match d.getItem "balance" with
          | none => .error (.keyError "balance")
          | some bal =>
            match pyInt bal with
            | .ok n => .ok ⟨none, n⟩
            | .error e => .error e

/-- Python truthiness of a JSON value (`if details and ...`). -/
def PyObj.truthy : PyObj → Bool
  | .pynone => false
  | .pybool b => b
  | .pyint n => n != 0
  | .pystr s => !s.isEmpty
  | .pydict fields => !fields.isEmpty

/-- Python `v is True`: identity with the boolean `True`. -/
def PyObj.isTrueV : PyObj → Bool
  | .pybool b => b
  | _ => false

/-- Store a JSON field into an `Optional[int]` dataclass slot. -/
def PyObj.asOptInt : PyObj → Except PyExc (Option Int)
  | .pynone => .ok none
  | .pyint n => .ok (some n)
  | _ => .error (.typeError "expected int")

/-- Store a JSON field into an `Optional[str]` dataclass slot. -/
def PyObj.asOptStr : PyObj → Except PyExc (Option String)
  | .pynone => .ok none
  | .pystr s => .ok (some s)
  | _ => .error (.typeError "expected str")

/-- Embeds `LNbitsWallet.get_invoice_status` (lnbits.py 129-145) as a function of
the outcome of `GET /api/v1/payments/{checking_id}`.  The whole body sits
in a try/except returning `Pending` on any exception, so no exception can
escape: `raise_for_status` on a non-2xx, a parse failure, and an
`AttributeError` from `.get` on a non-object body all become `Pending`. -/
def LNbitsWallet.get_invoice_status (res : HttpResult) : PaymentStatus :=
  match res with
  | .transportError _ => .pending
  | .response r =>
    if r.is_error then .pending
    else
      match r.json with
      | none => .pending
      | some data =>
        match data with
        | .pydict _ =>
          let details := (data.getItem "details").getD .pynone
          if details.truthy then
            match details with
            | .pydict _ =>
              if ((details.getItem "pending").getD (.pybool false)).isTrueV
              then .pending
              else if ((data.getItem "paid").getD (.pybool false)).isTrueV
              then .success none none
              else .failed
            | _ => .pending
          else if ((data.getItem "paid").getD (.pybool false)).isTrueV
          then .success none none
          else .failed
        | _ => .pending

/-- Embeds `LNbitsWallet.get_payment_status` (lnbits.py 147-162) as a function of
the outcome of `GET /api/v1/payments/{checking_id}`.  No try/except here:
a transport failure, an unparseable 2xx body, and a missing
`details["fee"]`/`data["preimage"]` all raise. -/
def LNbitsWallet.get_payment_status (res : HttpResult) :
    Except PyExc PaymentStatus :=
  match res with
  | .transportError exc => .error (.transportError exc)
  | .response r =>
    if r.is_error then .ok .pending
    else
      match r.json with
      | none => .error .jsonDecodeError
      | some data =>
        match data with
        | .pydict _ =>
          match data.getItem "paid" with
          | none => .ok .pending
          | some paidV =>
            if !paidV.truthy then .ok .pending
            else
              match data.getItem "details" with
              | none => .ok .pending
              | some details =>
                match details.getItem "fee" with
                | none => .error (.keyError "fee")
                | some feeV =>
                  match data.getItem "preimage" with
                  | none => .error (.keyError "preimage")
                  | some preV =>
                    match feeV.asOptInt, preV.asOptStr with
                    | .ok f, .ok p => .ok (.success f p)
                    | .error e, _ => .error e
                    | _, .error e => .error e
        | _ => .error (.typeError "argument of type is not a dict")

/-- Embeds `LNPayWallet.get_payment_status` (lnpay.py 142-154) as a function of
the outcome of `GET /lntx/{checking_id}`.  No try/except: transport
failures and unparseable 2xx bodies raise; on a parsed body the native
`settled` token goes through the Status Normalizer with the fee and
preimage fields. -/
def LNPayWallet.get_payment_status (res : HttpResult) :
    Except PyExc PaymentStatus :=
  match res with
  | .transportError exc => .error (.transportError exc)
  | .response r =>
    if r.is_error then .ok .pending
    else
      match r.json with
      | none => .error .jsonDecodeError
      | some data =>
        match data.getItem "payment_preimage" with
        | none => .error (.keyError "payment_preimage")
        | some preV =>
          match data.getItem "fee_msat" with
          | none => .error (.keyError "fee_msat")
          | some feeV =>
            match data.getItem "settled" with
            | none => .error (.keyError "settled")
            | some settledV =>
              match feeV.asOptInt, preV.asOptStr with
              | .ok f, .ok p =>
                  .ok (Wallet.payment_status LNPayWallet.payment_status_map
                    settledV f p)
              | .error e, _ => .error e
              | _, .error e => .error e

/-- Embeds `LNPayWallet.get_invoice_status` (lnpay.py 139-140), which delegates to
`get_payment_status`. -/
def LNPayWallet.get_invoice_status (res : HttpResult) :
    Except PyExc PaymentStatus :=
  LNPayWallet.get_payment_status res

/-- Embeds `ZBDWallet.get_payment_status` (zbd.py 144-151) as a function of the
outcome of `GET payments/{checking_id}`.  No try/except: transport
failures and unparseable 2xx bodies raise; `data.get("status")` feeds the
Status Normalizer with no fee/preimage arguments, which therefore default
to `None`. -/
def ZBDWallet.get_payment_status (res : HttpResult) :
    Except PyExc PaymentStatus :=
  match res with
  | .transportError exc => .error (.transportError exc)
  | .response r =>
    if r.is_error then .ok .pending
    else
      match r.json with
      | none => .error .jsonDecodeError
      | some body =>
        match body.getItem "data" with
        | none => .error (.keyError "data")
        | some data =>
          match data with
          | .pydict _ =>
            .ok (Wallet.payment_status ZBDWallet.payment_status_map
              ((data.getItem "status").getD .pynone) none none)
          | _ => .error (.attributeError "get")

/-- Python truthiness of an `Optional[bytes]` parameter
(`if description_hash or unhashed_description:`): present and non-empty. -/
def bytesTruthy : Option (List Nat) → Bool
  | some bs => !bs.isEmpty
  | none => false

/-- Embeds `LNbitsWallet.create_invoice` (lnbits.py 81-105) response handling, as
a function of the outcome of `POST /api/v1/payments`.  The request-body
construction (lines 89-95) does not influence the returned value and is
not embedded.  `r.json()` runs unguarded (line 99), so an unparseable body
raises; an error status maps to `Failed(data["detail"])`. -/
def LNbitsWallet.create_invoice (res : HttpResult) :
    Except PyExc InvoiceResponse :=
  match res with
  | .transportError exc => .error (.transportError exc)
  | .response r =>
    match r.json with
    | none => .error .jsonDecodeError
    | some data =>
      if r.is_error then
        match data.getItem "detail" with
        | some (.pystr d) => .ok (.failed d)
        | some _ => .error (.typeError "detail")
        | none => .error (.keyError "detail")
      else
        match data.getItem "checking_id", data.getItem "payment_request" with
        | some (.pystr cid), some (.pystr pr) => .ok (.success cid pr)
        | some _, some _ => .error (.typeError "checking_id/payment_request")
        | none, _ => .error (.keyError "checking_id")
        | _, none => .error (.keyError "payment_request")

/-- Embeds `LNPayWallet.pay_invoice` (lnpay.py 116-137) response handling, as a
function of the outcome of `POST /wallet/{wallet_key}/withdraw`.  An
unparseable body is caught and becomes `Failed("Got invalid JSON: ...")`;
an error status maps to `Failed(data["message"])`; success reads
`data["lnTx"]["id"]` and `data["lnTx"]["payment_preimage"]` with
`fee_msat=0`. -/
def LNPayWallet.pay_invoice (res : HttpResult) :
    Except PyExc PaymentResponse :=
  match res with
  | .transportError exc => .error (.transportError exc)
  | .response r =>
    match r.json with
    | none => .ok (.failed ("Got invalid JSON: " ++ r.text.take 200))
    | some data =>
      if r.is_error then
        match data.getItem "message" with
        | some (.pystr m) => .ok (.failed m)
        | some _ => .error (.typeError "message")
        | none => .error (.keyError "message")
      else
        match data.getItem "lnTx" with
        | none => .error (.keyError "lnTx")
        | some ln =>
          match ln.getItem "id", ln.getItem "payment_preimage" with
          | some (.pystr cid), some (.pystr pre) =>
              .ok (.success cid (some 0) (some pre))
          | some _, some _ => .error (.typeError "id/payment_preimage")
          | none, _ => .error (.keyError "id")
          | _, none => .error (.keyError "payment_preimage")

/-- Embeds `ZBDWallet.create_invoice` (zbd.py 71-104).  The boolean of the result
records whether the `POST charges` call was reached: a truthy
`description_hash` or `unhashed_description` raises
`Unsupported("description_hash")` before any network call.  The request
body built from `amount`/`memo` (lines 83-90) does not influence the
returned value and is not embedded beyond the guard. -/
def ZBDWallet.create_invoice (amount : Int) (memo : Option String)
    (description_hash unhashed_description : Option (List Nat))
    (res : HttpResult) : Bool × Except PyExc InvoiceResponse :=
  if bytesTruthy description_hash || bytesTruthy unhashed_description then
    (false, .error (.unsupported "description_hash"))
  else
    match res with
    | .transportError exc => (true, .error (.transportError exc))
    | .response r =>
      if r.is_error then
        match r.json with
        | none => (true, .error .jsonDecodeError)
        | some body =>
          match body.getItem "message" with
          | some (.pystr m) => (true, .ok (.failed m))
          | some _ => (true, .error (.typeError "message"))
          | none => (true, .error (.keyError "message"))
      else
        match r.json with
        | none => (true, .error .jsonDecodeError)
        | some body =>
          match body.getItem "data" with
          | none => (true, .error (.keyError "data"))
          | some data =>
            match data.getItem "id",
                (data.getItem "invoice").bind fun i => i.getItem "request" with
            | some (.pystr cid), some (.pystr pr) =>
                (true, .ok (.success cid pr))
            | some _, some _ =>
                (true, .error (.typeError "id/invoice.request"))
            | none, _ => (true, .error (.keyError "id"))
            | _, none => (true, .error (.keyError "invoice.request"))

/-- Accessor `payment.fee_msat` of a canonical `PaymentStatus` (the
non-success variants carry no fee). -/
def PaymentStatus.fee_msat : PaymentStatus → Option Int
  | .success f _ => f
  | _ => none

/-- Accessor `payment.preimage` of a canonical `PaymentStatus`. -/
def PaymentStatus.preimage : PaymentStatus → Option String
  | .success _ p => p
  | _ => none

/-- Embeds `LNbitsWallet.pay_invoice` (lnbits.py 107-127) as a function of
the outcome of `POST /api/v1/payments` and of the follow-up
`GET /api/v1/payments/{checking_id}` that `get_payment_status` performs to
learn the fee and preimage.  An error status maps to
`Failed(r.json()["detail"])`; on success the `payment_hash` field becomes
the `checking_id` and the follow-up's fee/preimage are forwarded. -/
def LNbitsWallet.pay_invoice (res statusRes : HttpResult) :
    Except PyExc PaymentResponse :=
  match res with
  | .transportError exc => .error (.transportError exc)
  | .response r =>
    if r.is_error then
      match r.json with
      | none => .error .jsonDecodeError
      | some data =>
        match data.getItem "detail" with
        | some (.pystr d) => .ok (.failed d)
        | some _ => .error (.typeError "detail")
        | none => .error (.keyError "detail")
    else
      match r.json with
      | none => .error .jsonDecodeError
      | some data =>
        match data.getItem "payment_hash" with
        | none => .error (.keyError "payment_hash")
        | some (.pystr checking_id) =>
          match LNbitsWallet.get_payment_status statusRes with
          | .error e => .error e
          | .ok payment =>
              .ok (.success checking_id payment.fee_msat payment.preimage)
        | some _ => .error (.typeError "payment_hash")

/-- Embeds `LNPayWallet.create_invoice` (lnpay.py 86-114) response
handling, as a function of the outcome of
`POST /wallet/{wallet_key}/invoice`.  The request-body construction
(lines 94-100) does not influence the returned value and is not embedded.
Only a 201 status is a success; any other outcome returns
`Failed(r.text)` — the raw body, with no provider field extracted. -/
def LNPayWallet.create_invoice (res : HttpResult) :
    Except PyExc InvoiceResponse :=
  match res with
  | .transportError exc => .error (.transportError exc)
  | .response r =>
    if r.status_code == 201 then
      match r.json with
      | none => .error .jsonDecodeError
      | some data =>
        match data.getItem "id", data.getItem "payment_request" with
        | some (.pystr cid), some (.pystr pr) => .ok (.success cid pr)
        | some _, some _ => .error (.typeError "id/payment_request")
        | none, _ => .error (.keyError "id")
        | _, none => .error (.keyError "payment_request")
    else .ok (.failed r.text)

/-- Embeds `ZBDWallet.pay_invoice` (zbd.py 106-134) as a function of the
outcome of `POST payments`; `decoded_payment_hash` stands for
`bolt11.decode(bolt11_invoice).payment_hash`, the invoice-decoding
routine being an opaque library call.  An error status maps to
`Failed(r.json()["message"])`; success returns the negated `int` of
`data["fee"]` and the `preimage` field. -/
def ZBDWallet.pay_invoice (decoded_payment_hash : String)
    (res : HttpResult) : Except PyExc PaymentResponse :=
  match res with
  | .transportError exc => .error (.transportError exc)
  | .response r =>
    if r.is_error then
      match r.json with
      | none => .error .jsonDecodeError
      | some body =>
        match body.getItem "message" with
        | some (.pystr m) => .ok (.failed m)
        | some _ => .error (.typeError "message")
        | none => .error (.keyError "message")
    else
      match r.json with
      | none => .error .jsonDecodeError
      | some body =>
        match body.getItem "data" with
        | none => .error (.keyError "data")
        | some d =>
          match d.getItem "fee" with
          | none => .error (.keyError "fee")
          | some feeV =>
            match pyInt feeV with
            | .error e => .error e
            | .ok n =>
              match d.getItem "preimage" with
              | none => .error (.keyError "preimage")
              | some preV =>
                match preV.asOptStr with
                | .error e => .error e
                | .ok p =>
                    .ok (.success decoded_payment_hash (some (-n)) p)

/-- State of the pooled httpx client: whether it has been closed. -/
structure ClientState where
  closed : Bool

/-- Modelled collaborator `httpx.AsyncClient.aclose`: closing an
already-closed client returns silently (a no-op); closing an open client
transitions it to closed and may fail with an injected exception (httpx
raises `RuntimeError` when the pool is in a broken state, but the
injection point ranges over every exception type). -/
def aclose (st : ClientState) (failure : Option PyExc) :
    ClientState × Option PyExc :=
  if st.closed then (st, none) else (⟨true⟩, failure)

/-- Embeds `cleanup` — identical in all three adapters (lnbits.py 55-59,
lnpay.py 60-64, zbd.py 50-54): awaits `self.client.aclose()` and catches
only `RuntimeError`, logging it; any other exception propagates. -/
def Wallet.cleanup (st : ClientState) (failure : Option PyExc) :
    ClientState × Except PyExc Unit :=
  match aclose st failure with
  | (st2, none) => (st2, .ok ())
  | (st2, some e) =>
    match e with
    | .runtimeError _ => (st2, .ok ())
    | other => (st2, .error other)

/-- State of a queue-based adapter's notification relay: the store of all
queues ever created (a queue is recorded as the full history of values
pushed into it, oldest first) and the index of the queue currently
installed as `self.queue`. -/
structure RelayState where
  queues : List (List String)
  current : Option Nat

/-- First iteration of the queue-based `paid_invoices_stream`
(lnpay.py 156-160, zbd.py 153-157): the generator's body runs and
`self.queue = asyncio.Queue(0)` installs a fresh empty queue on the
adapter; the returned index identifies the new stream's own queue. -/
def startPaidInvoicesStream (st : RelayState) : RelayState × Nat :=
  (⟨st.queues ++ [[]], some st.queues.length⟩, st.queues.length)

/-- The external webhook collaborator pushing a settled payment hash into
`self.queue`, whichever queue is currently installed; with no stream ever
started there is no queue attribute and the push is lost. -/
def webhookPush (st : RelayState) (h : String) : RelayState :=
  match st.current with
  | none => st
  | some i => ⟨st.queues.set i (st.queues.getD i [] ++ [h]), st.current⟩

/-- Pushing directly into a previously obtained queue object (index `i`),
as a stale holder of an old stream's queue would. -/
def pushToQueue (st : RelayState) (i : Nat) (h : String) : RelayState :=
  ⟨st.queues.set i (st.queues.getD i [] ++ [h]), st.current⟩

/-- The values the stream on queue `qid` emits over time: it dequeues
forever, so it yields exactly the values ever pushed into its own queue,
in order. -/
def streamEmissions (st : RelayState) (qid : Nat) : List String :=
  st.queues.getD qid []

/-- JSON insignificant whitespace. -/
def jsonWs (c : Char) : Bool :=
  c == ' ' || c == '\t' || c == '\n' || c == '\r'

def skipWs : List Char → List Char
  | [] => []
  | c :: rest => if jsonWs c then skipWs rest else c :: rest

def parseJStringGo : List Char → String → Option (String × List Char)
  | [], _ => none
  | c :: rest, acc =>
    if c == '"' then some (acc, rest)
    else if c == '\\' then none
    else parseJStringGo rest (acc.push c)

/-- A JSON string literal (no escape sequences) and the remaining input. -/
def parseJString : List Char → Option (String × List Char)
  | '"' :: rest => parseJStringGo rest ""
  | _ => none

/-- Comma-separated `"key": "value"` members. -/
def parseMembers :
    Nat → List Char → Option (List (String × String) × List Char)
  | 0, _ => none
  | fuel + 1, cs =>
    match parseJString (skipWs cs) with
    | none => none
    | some (k, rest) =>
      match skipWs rest with
      | ':' :: rest2 =>
        match parseJString (skipWs rest2) with
        | none => none
        | some (v, rest3) =>
          match skipWs rest3 with
          | ',' :: rest4 =>
            match parseMembers fuel rest4 with
            | some (ms, rest5) => some ((k, v) :: ms, rest5)
            | none => none
          | other => some ([(k, v)], other)
      | _ => none

/-- Minimal model of the stdlib `json.loads` restricted to the payload
shapes the SSE data lines carry: a flat object of string keys and string
values without escape sequences.  `none` embeds a raised
`JSONDecodeError` on anything else. -/
def jsonLoadsFlat (s : String) : Option (List (String × String)) :=
  match skipWs s.data with
  | '\x7b' :: rest =>
    match skipWs rest with
    | '\x7d' :: rest2 => if (skipWs rest2).isEmpty then some [] else none
    | _ =>
      match parseMembers (rest.length + 1) rest with
      | some (ms, rest3) =>
        match skipWs rest3 with
        | '\x7d' :: rest4 => if (skipWs rest4).isEmpty then some ms else none
        | _ => none
      | none => none
  | _ => none

/-- Embeds `json.loads(...)["payment_hash"]` on a data-line payload: `none`
embeds either a parse failure or a missing key, both of which raise. -/
def jsonPaymentHash (s : String) : Option String :=
  (jsonLoadsFlat s).bind fun ms => ms.lookup "payment_hash"

def startsWithGo : List Char → List Char → Bool
  | [], _ => true
  | _ :: _, [] => false
  | p :: ps, c :: cs => p == c && startsWithGo ps cs

/-- Python `s.startswith(pre)`. -/
def pyStartsWith (s pre : String) : Bool :=
  startsWithGo pre.data s.data

/-- Python slicing `line[n:]`. -/
def dropChars (s : String) (n : Nat) : String :=
  String.mk (s.data.drop n)

/-- One connection's line loop of `LNbitsWallet.paid_invoices_stream`
(lnbits.py 178-191): `sse_trigger` is set by a line starting with
`event: payment-received` and consumed by an immediately following line
starting with `data:`, whose payload (the line after the 5-character
`data:` marker) is parsed and its `payment_hash` field yielded; any other
line resets the trigger and is discarded.  Returns the values yielded, and
`true` when the loop aborted on an uncaught exception (an unparseable
payload or one without a `payment_hash` field — `json.loads`/the key
lookup sit outside the `except` clause, which names only transport
errors). -/
def sseLoop : Bool → List String → List String × Bool
  | _, [] => ([], false)
  | sse_trigger, line :: rest =>
    if pyStartsWith line "event: payment-received" then sseLoop true rest
    else if sse_trigger && pyStartsWith line "data:" then
      match jsonPaymentHash (dropChars line 5) with
      | some h =>
        let r := sseLoop false rest
        (h :: r.1, r.2)
      | none => ([], true)
    else sseLoop false rest

/-- The reconnect loop of `paid_invoices_stream` (lnbits.py 167-199) over
a schedule of connection attempts, each given as the lines received before
that connection ended (by mid-stream transport failure or server close —
both reach the same code path, since transport exceptions are swallowed by
the `except` clause).  Returns the values yielded to the consumer and the
list of back-off delays slept in seconds: after every ended attempt the
runner logs, sleeps 5 seconds and reconnects; an uncaught in-loop
exception instead terminates the generator. -/
def paidInvoicesStreamRun : List (List String) → List String × List Nat
  | [] => ([], [])
  | lines :: rest =>
    let r := sseLoop false lines
    if r.2 then (r.1, [])
    else
      let r2 := paidInvoicesStreamRun rest
      (r.1 ++ r2.1, 5 :: r2.2)

theorem scalarEq_iff (a t : PyObj) (ha : a.isScalar = true) :
    a.scalarEq t = true ↔ t = a := by
  cases a <;> cases t <;>
    (simp [PyObj.scalarEq, PyObj.isScalar] at ha ⊢; try exact eq_comm)

theorem any_scalarEq_iff (l : List PyObj) (hl : ∀ a ∈ l, a.isScalar = true)
    (t : PyObj) : (l.any fun v => v.scalarEq t) = true ↔ t ∈ l := by
  induction l with
  | nil => simp
  | cons a l ih =>
    have ha := hl a (List.mem_cons_self a l)
    have hrest : ∀ b ∈ l, b.isScalar = true := fun b hb =>
      hl b (List.mem_cons_of_mem a hb)
    simp [List.any_cons, ih hrest, scalarEq_iff a t ha, or_comm]

theorem walletStatusMaps_scalar (m : PaymentStatusMap)
    (hm : m ∈ walletStatusMaps) :
    (∀ a ∈ m.success, a.isScalar = true) ∧
    (∀ a ∈ m.failed, a.isScalar = true) ∧
    (∀ a ∈ m.pending, a.isScalar = true) := by
  simp only [walletStatusMaps, List.mem_cons, List.not_mem_nil,
    or_false] at hm
  rcases hm with rfl | rfl | rfl <;>
    refine ⟨?_, ?_, ?_⟩ <;> intro a ha <;>
    simp only [LNbitsWallet.payment_status_map, LNPayWallet.payment_status_map,
      ZBDWallet.payment_status_map, List.mem_cons, List.mem_singleton,
      List.not_mem_nil, or_false] at ha <;>
    rcases ha with rfl | rfl | rfl | rfl <;> rfl

theorem walletStatusMaps_disjoint (m : PaymentStatusMap)
    (hm : m ∈ walletStatusMaps) (t : PyObj) :
    (t ∈ m.failed → t ∉ m.success) ∧
    (t ∈ m.pending → t ∉ m.success ∧ t ∉ m.failed) := by
  simp only [walletStatusMaps, List.mem_cons, List.not_mem_nil,
    or_false] at hm
  rcases hm with rfl | rfl | rfl <;>
    constructor <;>
    intro ht <;>
    simp only [LNbitsWallet.payment_status_map, LNPayWallet.payment_status_map,
      ZBDWallet.payment_status_map, List.mem_cons, List.not_mem_nil,
      or_false] at ht <;>
    (try casesm* _ ∨ _) <;> subst_vars <;>
    simp [LNbitsWallet.payment_status_map, LNPayWallet.payment_status_map,
      ZBDWallet.payment_status_map]

/-- C1: for every adapter's `PaymentStatusMap`, the Status Normalizer
(`payment_status`) sends a token in the success set to `Success` (with the
given fee/preimage), a token in the failed set to `Failed`, a token in the
pending set to `Pending`, and any token absent from all three sets to
`Pending`. -/
theorem payment_status_normalizes (m : PaymentStatusMap)
    (hm : m ∈ walletStatusMaps) (t : PyObj) (fee : Option Int)
    (pre : Option String) :
    (t ∈ m.success → Wallet.payment_status m t fee pre = .success fee pre) ∧
    (t ∈ m.failed → Wallet.payment_status m t fee pre = .failed) ∧
    (t ∈ m.pending → Wallet.payment_status m t fee pre = .pending) ∧
    (t ∉ m.success → t ∉ m.failed → t ∉ m.pending →
      Wallet.payment_status m t fee pre = .pending) := by
  obtain ⟨hs, hf, _⟩ := walletStatusMaps_scalar m hm
  obtain ⟨hdisjf, hdisjp⟩ := walletStatusMaps_disjoint m hm t
  have hsucc := any_scalarEq_iff m.success hs t
  have hfail := any_scalarEq_iff m.failed hf t
  refine ⟨?_, ?_, ?_, ?_⟩
  · intro ht
    rw [Wallet.payment_status, if_pos (hsucc.mpr ht)]
  · intro ht
    rw [Wallet.payment_status, if_neg, if_pos (hfail.mpr ht)]
    simp only [hsucc]
    exact hdisjf ht
  · intro ht
    obtain ⟨hns, hnf⟩ := hdisjp ht
    rw [Wallet.payment_status, if_neg, if_neg]
    · simp only [hfail]; exact hnf
    · simp only [hsucc]; exact hns
  · intro h1 h2 _
    rw [Wallet.payment_status, if_neg, if_neg]
    · simp only [hfail]; exact h2
    · simp only [hsucc]; exact h1

/-- Witness for C1: the ZBD adapter's token `"completed"` is in its success
set and normalizes to `Success` with the supplied fee and preimage. -/
theorem payment_status_normalizes_witness :
    ZBDWallet.payment_status_map ∈ walletStatusMaps ∧
    PyObj.pystr "completed" ∈ ZBDWallet.payment_status_map.success ∧
    Wallet.payment_status ZBDWallet.payment_status_map (.pystr "completed")
      (some 5) (some "ab") = .success (some 5) (some "ab") :=
  ⟨by simp [walletStatusMaps], by simp [ZBDWallet.payment_status_map],
   (payment_status_normalizes ZBDWallet.payment_status_map
      (by simp [walletStatusMaps]) (.pystr "completed") (some 5)
      (some "ab")).1 (by simp [ZBDWallet.payment_status_map])⟩

theorem length_append_pos (s t : String) (h : 0 < s.length) :
    0 < (s ++ t).length := by
  rw [String.length_append]; omega

/-- Counterexample to C3 as stated: a 2xx response whose body is not valid
JSON makes `LNPayWallet.status` and `ZBDWallet.status` raise
(`JSONDecodeError` from `r.json()`, outside the try block) instead of
returning a `StatusResponse`. -/
theorem status_parse_failure_raises :
    LNPayWallet.status "wk" (.response ⟨200, "garbage", none⟩) =
      .error .jsonDecodeError ∧
    ZBDWallet.status "https://api.zebedee.io/v0" (.response ⟨200, "garbage", none⟩) =
      .error .jsonDecodeError :=
  ⟨rfl, rfl⟩

/-- C3 amended: every adapter maps a transport failure (connection refused,
timeout) from `status()` to a returned `StatusResponse` whose error is a
non-empty description and whose `balance_msat` is 0; the LNbits adapter
additionally maps a parse failure of the response body that way, while the
LNPay and ZBD adapters propagate body-parse failures. -/
theorem status_transport_failure_safe (endpoint wallet_key exc : String)
    (r : HttpResponse) (hr : r.json = none) :
    (∃ msg, 0 < msg.length ∧
      LNbitsWallet.status endpoint (.transportError exc) = .ok ⟨some msg, 0⟩) ∧
    (∃ msg, 0 < msg.length ∧
      LNPayWallet.status wallet_key (.transportError exc) = .ok ⟨some msg, 0⟩) ∧
    (∃ msg, 0 < msg.length ∧
      ZBDWallet.status endpoint (.transportError exc) = .ok ⟨some msg, 0⟩) ∧
    (∃ msg, 0 < msg.length ∧
      LNbitsWallet.status endpoint (.response r) = .ok ⟨some msg, 0⟩) := by
  refine ⟨⟨_, ?_, rfl⟩, ⟨_, ?_, rfl⟩, ⟨_, ?_, rfl⟩,
    ⟨"Failed to connect to " ++ endpoint ++ ", got: " ++
      r.text.take 200 ++ "...", ?_, ?_⟩⟩
  · repeat apply length_append_pos
    decide
  · repeat apply length_append_pos
    decide
  · repeat apply length_append_pos
    decide
  · repeat apply length_append_pos
    decide
  · simp [LNbitsWallet.status, hr]

/-- Witness for C3 (amended): concrete transport failures and a concrete
unparseable-body response all return an error `StatusResponse`. -/
theorem status_transport_failure_safe_witness :
    (⟨400, "bad", none⟩ : HttpResponse).json = none ∧
    ((∃ msg, 0 < msg.length ∧
      LNbitsWallet.status "http://h" (.transportError "refused") =
        .ok ⟨some msg, 0⟩) ∧
    (∃ msg, 0 < msg.length ∧
      LNPayWallet.status "wk" (.transportError "refused") = .ok ⟨some msg, 0⟩) ∧
    (∃ msg, 0 < msg.length ∧
      ZBDWallet.status "http://h" (.transportError "refused") =
        .ok ⟨some msg, 0⟩) ∧
    (∃ msg, 0 < msg.length ∧
      LNbitsWallet.status "http://h" (.response ⟨400, "bad", none⟩) =
        .ok ⟨some msg, 0⟩)) :=
  ⟨rfl, status_transport_failure_safe "http://h" "wk" "refused"
    ⟨400, "bad", none⟩ rfl⟩

/-- C8: `status()` reports the balance in millisatoshis: the LNPay adapter
multiplies the provider's minor-unit balance `b` by 1000, and the ZBD
adapter converts the provider's string balance with `int(...)` and returns
the converted value unchanged. -/
theorem status_balance_msat (wallet_key endpoint : String) (b n : Int)
    (s : String) (hs : pyIntOfString s = some n) :
    LNPayWallet.status wallet_key (.response ⟨200, "",
      some (.pydict [("statusType", .pydict [("name", .pystr "active")]),
        ("balance", .pyint b)])⟩) = .ok ⟨none, b * 1000⟩ ∧
    ZBDWallet.status endpoint (.response ⟨200, "",
      some (.pydict [("data", .pydict [("balance", .pystr s)])])⟩) =
      .ok ⟨none, n⟩ := by
  constructor
  · rfl
  · simp [ZBDWallet.status, HttpResponse.is_error, PyObj.getItem, pyInt, hs,
      List.lookup]

/-- Witness for C8: an LNPay balance of 5 yields exactly 5000 msat, and a
ZBD balance string of "5000" yields exactly 5000 msat. -/
theorem status_balance_msat_witness :
    pyIntOfString "5000" = some 5000 ∧
    (LNPayWallet.status "wk" (.response ⟨200, "",
      some (.pydict [("statusType", .pydict [("name", .pystr "active")]),
        ("balance", .pyint 5)])⟩) = .ok ⟨none, 5 * 1000⟩ ∧
    ZBDWallet.status "http://h" (.response ⟨200, "",
      some (.pydict [("data", .pydict [("balance", .pystr "5000")])])⟩) =
      .ok ⟨none, 5000⟩) :=
  ⟨by decide, status_balance_msat "wk" "http://h" 5 5000 "5000" (by decide)⟩

/-- Counterexample to C4 as stated: an unparseable body on a 2xx
status-check response makes all three `get_payment_status` implementations
raise (`JSONDecodeError`) instead of returning `Pending`. -/
theorem get_payment_status_parse_failure_raises :
    LNbitsWallet.get_payment_status (.response ⟨200, "garbage", none⟩) =
      .error .jsonDecodeError ∧
    LNPayWallet.get_payment_status (.response ⟨200, "garbage", none⟩) =
      .error .jsonDecodeError ∧
    ZBDWallet.get_payment_status (.response ⟨200, "garbage", none⟩) =
      .error .jsonDecodeError :=
  ⟨rfl, rfl, rfl⟩

/-- C4 amended: on the status-check paths a provider error status (non-2xx)
returns `Pending` without reading the body, for all three adapters; and
`LNbitsWallet.get_invoice_status`, whose whole body is guarded by a
try/except, also returns `Pending` on an error status, an unparseable
body, or a transport failure.  The three `get_payment_status`
implementations read `r.json()` unguarded on 2xx responses and propagate a
parse error. -/
theorem status_check_error_response_pending (r : HttpResponse)
    (hr : r.is_error = true) (exc : String) (rp : HttpResponse)
    (hp : rp.json = none) :
    LNbitsWallet.get_payment_status (.response r) = .ok .pending ∧
    LNPayWallet.get_payment_status (.response r) = .ok .pending ∧
    ZBDWallet.get_payment_status (.response r) = .ok .pending ∧
    LNbitsWallet.get_invoice_status (.response r) = .pending ∧
    LNbitsWallet.get_invoice_status (.response rp) = .pending ∧
    LNbitsWallet.get_invoice_status (.transportError exc) = .pending := by
  refine ⟨?_, ?_, ?_, ?_, ?_, rfl⟩ <;>
    simp [LNbitsWallet.get_payment_status, LNPayWallet.get_payment_status,
      ZBDWallet.get_payment_status, LNbitsWallet.get_invoice_status, hr, hp]

/-- Witness for C4 (amended): a concrete 404 response, a concrete
unparseable response and a concrete transport failure. -/
theorem status_check_error_response_pending_witness :
    (⟨404, "", some (.pydict [])⟩ : HttpResponse).is_error = true ∧
    (⟨200, "x", none⟩ : HttpResponse).json = none ∧
    (LNbitsWallet.get_payment_status
        (.response ⟨404, "", some (.pydict [])⟩) = .ok .pending ∧
      LNPayWallet.get_payment_status
        (.response ⟨404, "", some (.pydict [])⟩) = .ok .pending ∧
      ZBDWallet.get_payment_status
        (.response ⟨404, "", some (.pydict [])⟩) = .ok .pending ∧
      LNbitsWallet.get_invoice_status
        (.response ⟨404, "", some (.pydict [])⟩) = .pending ∧
      LNbitsWallet.get_invoice_status
        (.response ⟨200, "x", none⟩) = .pending ∧
      LNbitsWallet.get_invoice_status (.transportError "refused") = .pending) :=
  ⟨rfl, rfl, status_check_error_response_pending ⟨404, "", some (.pydict [])⟩
    rfl "refused" ⟨200, "x", none⟩ rfl⟩

/-- Counterexample to C6 as stated: the ZBD adapter, on a settled payment
whose response carries fee and preimage fields, returns `Success` with
`fee_msat` and `preimage` unset (its `get_payment_status` passes only the
status token to the normalizer), so "fee_msat and preimage populated from
the provider's response fields" fails for it. -/
theorem zbd_settled_fee_preimage_unpopulated :
    ZBDWallet.get_payment_status (.response ⟨200, "",
      some (.pydict [("data", .pydict [("status", .pystr "completed"),
        ("fee", .pystr "1000"), ("preimage", .pystr "aa")])])⟩) =
      .ok (.success none none) ∧
    ZBDWallet.get_payment_status (.response ⟨200, "",
      some (.pydict [("data", .pydict [("status", .pystr "completed"),
        ("fee", .pystr "1000"), ("preimage", .pystr "aa")])])⟩) ≠
      .ok (.success (some 1000) (some "aa")) := by
  refine ⟨rfl, ?_⟩
  intro h
  rw [show ZBDWallet.get_payment_status (.response ⟨200, "",
      some (.pydict [("data", .pydict [("status", .pystr "completed"),
        ("fee", .pystr "1000"), ("preimage", .pystr "aa")])])⟩) =
      .ok (.success none none) from rfl] at h
  simp at h

/-- C6 amended: polling before settlement returns `Pending` (the calls are
pure functions of the provider response, so repeated polls are identical
and side-effect-free); after settlement the LNbits and LNPay adapters
return `Success` with `fee_msat` and `preimage` populated from the
provider's response fields, while the ZBD adapter returns `Success` with
them unset. -/
theorem get_payment_status_poll (t p : String) (f : Int) :
    LNbitsWallet.get_payment_status (.response ⟨200, t,
      some (.pydict [("paid", .pybool false)])⟩) = .ok .pending ∧
    LNbitsWallet.get_payment_status (.response ⟨200, t,
      some (.pydict [])⟩) = .ok .pending ∧
    LNbitsWallet.get_payment_status (.response ⟨200, t,
      some (.pydict [("paid", .pybool true),
        ("details", .pydict [("fee", .pyint f)]),
        ("preimage", .pystr p)])⟩) = .ok (.success (some f) (some p)) ∧
    LNPayWallet.get_payment_status (.response ⟨200, t,
      some (.pydict [("payment_preimage", .pynone), ("fee_msat", .pynone),
        ("settled", .pyint 0)])⟩) = .ok .pending ∧
    LNPayWallet.get_payment_status (.response ⟨200, t,
      some (.pydict [("payment_preimage", .pystr p), ("fee_msat", .pyint f),
        ("settled", .pyint 1)])⟩) = .ok (.success (some f) (some p)) ∧
    ZBDWallet.get_payment_status (.response ⟨200, t,
      some (.pydict [("data",
        .pydict [("status", .pystr "pending")])])⟩) = .ok .pending := by
  refine ⟨rfl, rfl, rfl, rfl, rfl, rfl⟩

/-- Counterexample to C7 as stated: a non-2xx (404) response on the ZBD
payment-status operation carrying an extractable provider message returns
`Pending`, not a `Failed` result with that message. -/
theorem zbd_error_status_not_failed :
    ZBDWallet.get_payment_status (.response ⟨404, "",
      some (.pydict [("message", .pystr "Not found")])⟩) = .ok .pending := rfl

/-- C7 amended: every invoice-creation and payment-execution operation of
every adapter maps a provider response with a non-2xx status to a returned
`Failed` result; it carries the provider's own extracted error message
where the adapter extracts one — `detail` for LNbits `create_invoice` and
`pay_invoice`, `message` for LNPay `pay_invoice` and for ZBD
`create_invoice` and `pay_invoice` — while LNPay `create_invoice` returns
the raw response text without extracting a field; the status-check
operations instead map a non-2xx response to `Pending`. -/
theorem provider_error_mapped_to_failed (r : HttpResponse)
    (hr : r.is_error = true) (data : PyObj) (d m : String)
    (hj : r.json = some data) (hd : data.getItem "detail" = some (.pystr d))
    (hm : data.getItem "message" = some (.pystr m)) (amount : Int)
    (memo : Option String) (res2 : HttpResult) (dph : String) :
    LNbitsWallet.create_invoice (.response r) = .ok (.failed d) ∧
    LNbitsWallet.pay_invoice (.response r) res2 = .ok (.failed d) ∧
    LNPayWallet.create_invoice (.response r) = .ok (.failed r.text) ∧
    LNPayWallet.pay_invoice (.response r) = .ok (.failed m) ∧
    (ZBDWallet.create_invoice amount memo none none (.response r)).2 =
      .ok (.failed m) ∧
    ZBDWallet.pay_invoice dph (.response r) = .ok (.failed m) := by
  have h201 : (r.status_code == 201) = false := by
    simp only [HttpResponse.is_error, Bool.and_eq_true, decide_eq_true_eq]
      at hr
    simp only [beq_eq_false_iff_ne, ne_eq]
    omega
  refine ⟨?_, ?_, ?_, ?_, ?_, ?_⟩ <;>
    simp [LNbitsWallet.create_invoice, LNbitsWallet.pay_invoice,
      LNPayWallet.create_invoice, LNPayWallet.pay_invoice,
      ZBDWallet.create_invoice, ZBDWallet.pay_invoice, bytesTruthy,
      hj, hr, hd, hm, h201]

/-- Witness for C7 (amended): a concrete 400 response with both provider
message fields present, exercised on all six create/pay operations. -/
theorem provider_error_mapped_to_failed_witness :
    (⟨400, "raw body", some (.pydict [("detail", .pystr "bad detail"),
        ("message", .pystr "bad message")])⟩ : HttpResponse).is_error
        = true ∧
    (LNbitsWallet.create_invoice (.response ⟨400, "raw body",
        some (.pydict [("detail", .pystr "bad detail"),
          ("message", .pystr "bad message")])⟩) =
      .ok (.failed "bad detail") ∧
    LNbitsWallet.pay_invoice (.response ⟨400, "raw body",
        some (.pydict [("detail", .pystr "bad detail"),
          ("message", .pystr "bad message")])⟩)
        (.transportError "unused") =
      .ok (.failed "bad detail") ∧
    LNPayWallet.create_invoice (.response ⟨400, "raw body",
        some (.pydict [("detail", .pystr "bad detail"),
          ("message", .pystr "bad message")])⟩) =
      .ok (.failed "raw body") ∧
    LNPayWallet.pay_invoice (.response ⟨400, "raw body",
        some (.pydict [("detail", .pystr "bad detail"),
          ("message", .pystr "bad message")])⟩) =
      .ok (.failed "bad message") ∧
    (ZBDWallet.create_invoice 1 none none none (.response ⟨400, "raw body",
        some (.pydict [("detail", .pystr "bad detail"),
          ("message", .pystr "bad message")])⟩)).2 =
      .ok (.failed "bad message") ∧
    ZBDWallet.pay_invoice "ph" (.response ⟨400, "raw body",
        some (.pydict [("detail", .pystr "bad detail"),
          ("message", .pystr "bad message")])⟩) =
      .ok (.failed "bad message")) :=
  ⟨rfl, provider_error_mapped_to_failed
    ⟨400, "raw body", some (.pydict [("detail", .pystr "bad detail"),
      ("message", .pystr "bad message")])⟩ rfl
    (.pydict [("detail", .pystr "bad detail"),
      ("message", .pystr "bad message")]) "bad detail" "bad message"
    rfl rfl rfl 1 none (.transportError "unused") "ph"⟩

/-- Counterexample to C5 as stated: the ZBD adapter raises
`Unsupported("description_hash")` rather than returning a `Failed` invoice
result (the spec's `Failed("unsupported: description_hash")`). -/
theorem zbd_description_hash_raises :
    (ZBDWallet.create_invoice 1 none (some [1, 2]) none
        (.response ⟨200, "", none⟩)) =
      (false, .error (.unsupported "description_hash")) ∧
    (ZBDWallet.create_invoice 1 none (some [1, 2]) none
        (.response ⟨200, "", none⟩)).2 ≠
      .ok (.failed "unsupported: description_hash") := by
  refine ⟨rfl, ?_⟩
  intro h
  rw [show (ZBDWallet.create_invoice 1 none (some [1, 2]) none
      (.response ⟨200, "", none⟩)).2 =
      .error (.unsupported "description_hash") from rfl] at h
  simp at h

/-- C5 amended: `ZBDWallet.create_invoice` with a (non-empty)
`description_hash` or `unhashed_description` raises
`Unsupported("description_hash")` identifying the unsupported parameter,
without performing any network call (the flag recording that the POST was
reached is `false`), whatever the would-be response. -/
theorem zbd_create_invoice_description_hash_unsupported (amount : Int)
    (memo : Option String) (dh ud : Option (List Nat)) (res : HttpResult)
    (h : (bytesTruthy dh || bytesTruthy ud) = true) :
    ZBDWallet.create_invoice amount memo dh ud res =
      (false, .error (.unsupported "description_hash")) := by
  simp [ZBDWallet.create_invoice, h]

/-- Witness for C5 (amended): a concrete two-byte description hash. -/
theorem zbd_create_invoice_description_hash_unsupported_witness :
    (bytesTruthy (some [1, 2]) || bytesTruthy none) = true ∧
    ZBDWallet.create_invoice 21 (some "memo") (some [1, 2]) none
        (.transportError "never sent") =
      (false, .error (.unsupported "description_hash")) :=
  ⟨rfl, zbd_create_invoice_description_hash_unsupported 21 (some "memo")
    (some [1, 2]) none (.transportError "never sent") rfl⟩

theorem getD_snoc_length (l : List α) (x d : α) :
    (l ++ [x]).getD l.length d = x := by
  induction l with
  | nil => rfl
  | cons a l ih => simp [ih]

theorem getD_set_self (l : List α) (i : Nat) (a d : α) (hi : i < l.length) :
    (l.set i a).getD i d = a := by
  induction l generalizing i with
  | nil => simp at hi
  | cons b l ih =>
    cases i with
    | zero => rfl
    | succ n => simpa using ih n (by simpa using hi)

theorem getD_set_ne (l : List α) (i j : Nat) (a d : α) (hij : i ≠ j) :
    (l.set i a).getD j d = l.getD j d := by
  induction l generalizing i j with
  | nil => simp [List.set]
  | cons b l ih =>
    cases i with
    | zero =>
      cases j with
      | zero => exact absurd rfl hij
      | succ m => rfl
    | succ n =>
      cases j with
      | zero => rfl
      | succ m => simpa using ih n m fun h => hij (by rw [h])

/-- Counterexample to C9 as stated: a failure of `aclose` that is not a
`RuntimeError` propagates out of `cleanup()` — the except clause names
only `RuntimeError`, not any failure mode. -/
theorem cleanup_non_runtime_error_raises :
    Wallet.cleanup ⟨false⟩ (some (.valueError "boom")) =
      (⟨true⟩, .error (.valueError "boom")) := rfl

/-- C9 amended: `cleanup()` never raises when closing succeeds or fails
with a `RuntimeError` (the failure is logged, not propagated), and
repeated calls are idempotent — after any `cleanup()` the client is
closed, and `cleanup()` on a closed client is a no-op returning
successfully whatever failure would be injected; a non-`RuntimeError`
failure, however, propagates. -/
theorem cleanup_safe (st : ClientState) (msg : String)
    (f g : Option PyExc) :
    (Wallet.cleanup st (some (.runtimeError msg))).2 = .ok () ∧
    (Wallet.cleanup st none).2 = .ok () ∧
    (Wallet.cleanup st f).1.closed = true ∧
    Wallet.cleanup ⟨true⟩ g = (⟨true⟩, .ok ()) := by
  obtain ⟨c⟩ := st
  refine ⟨by cases c <;> rfl, by cases c <;> rfl, ?_, rfl⟩
  cases c
  · rcases f with _ | e
    · rfl
    · rcases e <;> rfl
  · rfl

/-- C10: the queue-based `paid_invoices_stream` installs a fresh empty
queue when the generator first runs: the new stream's queue starts empty
(so a value pushed before the start, here `h`, is absent from it), a value
pushed directly into any other queue — such as a previous stream's — never
reaches it, and a value pushed through the webhook after the start is
exactly what it emits. -/
theorem paid_invoices_stream_fresh_queue (st : RelayState) (h g : String)
    (i : Nat) (hi : i ≠ (startPaidInvoicesStream st).2) :
    streamEmissions (startPaidInvoicesStream st).1
      (startPaidInvoicesStream st).2 = [] ∧
    streamEmissions (startPaidInvoicesStream (webhookPush st h)).1
      (startPaidInvoicesStream (webhookPush st h)).2 = [] ∧
    streamEmissions (pushToQueue (startPaidInvoicesStream st).1 i g)
      (startPaidInvoicesStream st).2 =
      streamEmissions (startPaidInvoicesStream st).1
        (startPaidInvoicesStream st).2 ∧
    streamEmissions (webhookPush (startPaidInvoicesStream st).1 g)
      (startPaidInvoicesStream st).2 = [g] := by
  obtain ⟨q, cur⟩ := st
  refine ⟨getD_snoc_length q [] [], getD_snoc_length _ [] [], ?_, ?_⟩
  · exact getD_set_ne (q ++ [[]]) i q.length _ []
      (by simpa [startPaidInvoicesStream] using hi)
  · simp only [startPaidInvoicesStream, streamEmissions, webhookPush]
    rw [getD_snoc_length, getD_set_self]
    · simp
    · simp

/-- Witness for C10: a second stream started after a first stream's queue
already holds "old" neither sees "old" nor values pushed into queue 0. -/
theorem paid_invoices_stream_fresh_queue_witness :
    (0 : Nat) ≠ (startPaidInvoicesStream ⟨[["old"]], some 0⟩).2 ∧
    (streamEmissions (startPaidInvoicesStream ⟨[["old"]], some 0⟩).1
      (startPaidInvoicesStream ⟨[["old"]], some 0⟩).2 = [] ∧
    streamEmissions
      (startPaidInvoicesStream (webhookPush ⟨[["old"]], some 0⟩ "early")).1
      (startPaidInvoicesStream (webhookPush ⟨[["old"]], some 0⟩ "early")).2
      = [] ∧
    streamEmissions
      (pushToQueue (startPaidInvoicesStream ⟨[["old"]], some 0⟩).1 0 "stale")
      (startPaidInvoicesStream ⟨[["old"]], some 0⟩).2 =
      streamEmissions (startPaidInvoicesStream ⟨[["old"]], some 0⟩).1
        (startPaidInvoicesStream ⟨[["old"]], some 0⟩).2 ∧
    streamEmissions
      (webhookPush (startPaidInvoicesStream ⟨[["old"]], some 0⟩).1 "fresh")
      (startPaidInvoicesStream ⟨[["old"]], some 0⟩).2 = ["fresh"]) :=
  ⟨by decide,
   paid_invoices_stream_fresh_queue ⟨[["old"]], some 0⟩ "early" "fresh" 0
     (by decide)⟩

theorem sseLoop_no_pair (ls : List String) (trigger : Bool)
    (h0 : trigger = true → pyStartsWith (ls.getD 0 "") "data:" = false)
    (hp : ∀ i, i < ls.length - 1 →
      pyStartsWith (ls.getD i "") "event: payment-received" = true →
      pyStartsWith (ls.getD (i + 1) "") "data:" = false) :
    sseLoop trigger ls = ([], false) := by
  induction ls generalizing trigger with
  | nil => rfl
  | cons l rest ih =>
    by_cases hm : pyStartsWith l "event: payment-received" = true
    · rw [sseLoop, if_pos hm]
      apply ih
      · intro _
        rcases rest with _ | ⟨r, rs⟩
        · rfl
        · exact hp 0 (by simp) hm
      · intro i hi hmi
        refine hp (i + 1) ?_ ?_
        · simp only [List.length_cons] at hi ⊢
          omega
        · simpa [List.getD_cons_succ] using hmi
    · by_cases hd : (trigger && pyStartsWith l "data:") = true
      · rw [Bool.and_eq_true] at hd
        have h0' : pyStartsWith l "data:" = false := h0 hd.1
        rw [hd.2] at h0'
        exact absurd h0' (by simp)
      · rw [sseLoop, if_neg hm, if_neg hd]
        apply ih
        · intro h
          simp at h
        · intro i hi hmi
          refine hp (i + 1) ?_ ?_
          · simp only [List.length_cons] at hi ⊢
            omega
          · simpa [List.getD_cons_succ] using hmi

theorem paidInvoicesStreamRun_all (attempts : List (List String))
    (h : ∀ ls ∈ attempts, (sseLoop false ls).2 = false) :
    paidInvoicesStreamRun attempts =
      ((attempts.map fun ls => (sseLoop false ls).1).flatten,
        List.replicate attempts.length 5) := by
  induction attempts with
  | nil => rfl
  | cons ls rest ih =>
    have h1 := h ls (List.mem_cons_self ls rest)
    have h2 : ∀ l ∈ rest, (sseLoop false l).2 = false := fun l hl =>
      h l (List.mem_cons_of_mem ls hl)
    simp [paidInvoicesStreamRun, h1, ih h2, List.replicate]

/-- C2: the push-capable stream yields exactly `"abc123"` exactly once on
the marker line followed by the data line with payload
`{"payment_hash":"abc123"}`; a line sequence in which no line starting
with `event: payment-received` is immediately followed by a line starting
with `data:` yields nothing and raises nothing; and a run over any
schedule of connection attempts (none aborting on a bad payload) consumes
every attempt — so a mid-stream transport failure never terminates the
consumer's sequence — emitting each attempt's events in order and sleeping
the fixed 5 seconds before each reconnect. -/
theorem paid_invoices_stream_events :
    sseLoop false ["event: payment-received",
      "data: \x7b\"payment_hash\":\"abc123\"\x7d"] = (["abc123"], false) ∧
    (∀ ls : List String,
      (∀ i, i < ls.length - 1 →
        pyStartsWith (ls.getD i "") "event: payment-received" = true →
        pyStartsWith (ls.getD (i + 1) "") "data:" = false) →
      sseLoop false ls = ([], false)) ∧
    (∀ attempts : List (List String),
      (∀ ls ∈ attempts, (sseLoop false ls).2 = false) →
      paidInvoicesStreamRun attempts =
        ((attempts.map fun ls => (sseLoop false ls).1).flatten,
          List.replicate attempts.length 5)) := by
  refine ⟨by decide, ?_, paidInvoicesStreamRun_all⟩
  intro ls hp
  exact sseLoop_no_pair ls false (fun h => nomatch h) hp

/-- Witness for C2: the event pair yields `"abc123"` once; a heartbeat
line followed by an orphan data line yields nothing; a two-attempt
schedule (the event pair, then a heartbeat-only connection after the
simulated disconnect) emits `"abc123"` once and sleeps 5 seconds after
each attempt. -/
theorem paid_invoices_stream_events_witness :
    sseLoop false ["event: payment-received",
      "data: \x7b\"payment_hash\":\"abc123\"\x7d"] = (["abc123"], false) ∧
    sseLoop false [": heartbeat",
      "data: \x7b\"payment_hash\":\"abc123\"\x7d"] = ([], false) ∧
    paidInvoicesStreamRun [["event: payment-received",
        "data: \x7b\"payment_hash\":\"abc123\"\x7d"], [": heartbeat"]] =
      (["abc123"], [5, 5]) :=
  ⟨paid_invoices_stream_events.1,
   paid_invoices_stream_events.2.1 [": heartbeat",
     "data: \x7b\"payment_hash\":\"abc123\"\x7d"] (by decide),
   by
    rw [paid_invoices_stream_events.2.2 [["event: payment-received",
      "data: \x7b\"payment_hash\":\"abc123\"\x7d"], [": heartbeat"]]
      (by decide)]
    decide⟩

end LnbitsWallets
